import Mathlib

/-!
Shallow embedding of `airflow/operators/trigger_dagrun.py`
(`TriggerDagRunOperator`): the constructor, `execute` (trigger plus
conflict resolution plus blocking/deferred waiting) and
`execute_complete` (the deferred-resume handler).

Modelling conventions:
* datetimes and logical timestamps are `Nat` instants; `isoformat`
  renders an instant as its canonical text;
* external collaborators (`trigger_dag`, `DagModel.get_current`,
  `timezone`, the successive states seen by `refresh_from_db`) are
  supplied by a `World` record of response functions;
* side effects (the `trigger_dag` call, `dag.clear`, `xcom_push`,
  `time.sleep`) are recorded in an ordered trace of `Event`s;
* exceptions are values of `ExecError`, and `execute` returns an
  `ExecResult` instead of raising/returning.
-/

namespace TriggerDagRun

/-- `airflow.utils.state.DagRunState`: the run-state enum. -/
inductive DagRunState where
  | queued
  | running
  | success
  | failed
deriving DecidableEq, Repr

/-- The string value of each `DagRunState` member. -/
def DagRunState.value : DagRunState → String
  | .queued => "queued"
  | .running => "running"
  | .success => "success"
  | .failed => "failed"

/-- `DagRunState(s)` on a string: the member with that value, else a
`ValueError` (modelled as `none`). -/
def DagRunState.ofValue (s : String) : Option DagRunState :=
  if s = "queued" then some .queued
  else if s = "running" then some .running
  else if s = "success" then some .success
  else if s = "failed" then some .failed
  else none

/-- A Python value as passed for the `conf` payload: JSON-representable
shapes plus `object` for any value `json.dumps` rejects with `TypeError`. -/
inductive PyObj where
  | none_
  | boolean (b : Bool)
  | int (n : Int)
  | str (s : String)
  | list (xs : List PyObj)
  | dict (kvs : List (String × PyObj))
  | object (typeName : String)
deriving Repr

mutual

/-- Whether `json.dumps` succeeds on the value (recursively, as the
real serializer walks containers). -/
def PyObj.serializable : PyObj → Bool
  | .none_ => true
  | .boolean _ => true
  | .int _ => true
  | .str _ => true
  | .list xs => PyObj.listSerializable xs
  | .dict kvs => PyObj.dictSerializable kvs
  | .object _ => false

/-- All elements of a JSON array are serializable. -/
def PyObj.listSerializable : List PyObj → Bool
  | [] => true
  | x :: xs => x.serializable && PyObj.listSerializable xs

/-- All values of a JSON object are serializable. -/
def PyObj.dictSerializable : List (String × PyObj) → Bool
  | [] => true
  | (_, v) :: kvs => v.serializable && PyObj.dictSerializable kvs

end

/-- `json.dumps(self.conf)` succeeds: `conf` is `None` or serializable. -/
def confSerializable : Option PyObj → Bool
  | none => true
  | some c => c.serializable

/-- `datetime.isoformat()` of a modelled instant: its canonical ISO text. -/
def isoformat (t : Nat) : String := "1970-01-01T00:00:" ++ toString t

/-- Modelled from the spec: `DagRun.generate_run_id(DagRunType.MANUAL, ts)`
is not under src/; the spec says the run id is a time-based identifier
tagged as a manually-triggered run. -/
def generate_run_id (logical_date : Nat) : String :=
  "manual__" ++ isoformat logical_date

/-- The `logical_date` / `execution_date` constructor argument: a string,
a `datetime.datetime`, or a value of any other Python type. -/
inductive LDateArg where
  | str (s : String)
  | dt (t : Nat)
  | other (typeName : String)
deriving DecidableEq, Repr

/-- Module constant `XCOM_LOGICAL_DATE_ISO` (trigger_dagrun.py line 51). -/
def XCOM_LOGICAL_DATE_ISO : String := "trigger_logical_date_iso"

/-- Module constant `XCOM_RUN_ID` (trigger_dagrun.py line 52). -/
def XCOM_RUN_ID : String := "trigger_run_id"

/-- A DAG run row as visible to the operator: run id, logical date,
run conf, and the state at fetch time. -/
structure DagRunInfo where
  run_id : String
  logical_date : Nat
  conf : Option PyObj
  state : DagRunState

/-- Result of the `trigger_dag` collaborator: a created run, or
`DagRunAlreadyExists` carrying the existing run. -/
inductive TriggerResult where
  | created (run : DagRunInfo)
  | alreadyExists (existing : DagRunInfo)

/-- The external collaborators `execute` consults, as response functions:
`trigger_dag` (dag_id, run_id, conf, execution_date), `DagModel.get_current`
(returning the fileloc when the dag is registered), `timezone.parse`,
`timezone.utcnow`, and the successive states `dag_run.refresh_from_db`
observes in the blocking poll loop. -/
structure World where
  triggerDag : String → String → Option PyObj → Nat → TriggerResult
  getCurrent : String → Option String
  parse : String → Nat
  utcnow : Nat
  pollStates : List DagRunState

/-- One recorded side effect of `execute`, in program order. -/
inductive Event where
  | triggerCall (dag_id run_id : String) (conf : Option PyObj) (ts : Nat)
  | getCurrentCall (dag_id : String)
  | clearCall (start_date end_date : Nat)
  | xcomPush (key value : String)
  | sleep (secs : Nat)

/-- The exception kinds `execute` / `execute_complete` can raise. -/
inductive ExecError where
  | airflowException (msg : String)
  | dagNotFound (msg : String)
  | dagRunAlreadyExists (existing : DagRunInfo)

/-- How a call to `execute` / `execute_complete` ends: an exception, an
`AirflowSkipException`, a normal return, a `TaskDeferred` suspension
carrying the watch request, or (model artifact) the finite list of
observed poll states was exhausted while the loop was still polling. -/
inductive ExecResult where
  | failure (e : ExecError)
  | skipped (msg : String)
  | done
  | deferred (dag_id : String) (states : List DagRunState)
      (execution_dates : List Nat) (poll_interval : Nat)
  | stillPolling

/-- The operator instance after `__init__`: the attributes it stores.
`deferrable` models the stored `self._defer`. -/
structure Op where
  trigger_dag_id : String
  trigger_run_id : Option String
  conf : Option PyObj
  reset_dag_run : Bool
  wait_for_completion : Bool
  poke_interval : Nat
  allowed_states : List DagRunState
  failed_states : List DagRunState
  skip_when_already_exists : Bool
  deferrable : Bool
  logical_date : Option LDateArg

/-- The keyword arguments of `TriggerDagRunOperator.__init__`. A state may
be given as a string or as a `DagRunState` member (`list[str | DagRunState]`). -/
structure InitArgs where
  trigger_dag_id : String
  trigger_run_id : Option String := none
  conf : Option PyObj := none
  logical_date : Option LDateArg := none
  reset_dag_run : Bool := false
  wait_for_completion : Bool := false
  poke_interval : Nat := 60
  allowed_states : Option (List (String ⊕ DagRunState)) := none
  failed_states : Option (List (String ⊕ DagRunState)) := none
  skip_when_already_exists : Bool := false
  deferrable : Bool := false
  execution_date : Option LDateArg := none

/-- Constructor-time exceptions: `ValueError` from `DagRunState(s)` on an
unrecognized value, or the `TypeError` for a bad `logical_date`. -/
inductive InitError where
  | valueError (badValue : String)
  | typeError (msg : String)
deriving DecidableEq, Repr

/-- A successful construction: the operator plus emitted warnings. -/
structure InitResult where
  op : Op
  warnings : List String

/-- `DagRunState(s)` applied to one list element: a string is parsed, an
existing member is returned unchanged. -/
def parseStateInput : String ⊕ DagRunState → Option DagRunState
  | .inl s => DagRunState.ofValue s
  | .inr st => some st

/-- The text of a bad state input, for the `ValueError` payload. -/
def stateInputText : String ⊕ DagRunState → String
  | .inl s => s
  | .inr st => st.value

/-- `[DagRunState(s) for s in states]`: parse each element, raising
`ValueError` at the first unrecognized value. -/
def parseStates : List (String ⊕ DagRunState) → Except InitError (List DagRunState)
  | [] => .ok []
  | i :: rest =>
    match parseStateInput i with
    | none => .error (.valueError (stateInputText i))
    | some st =>
      match parseStates rest with
      | .error e => .error e
      | .ok sts => .ok (st :: sts)

/-- The deprecation warning text emitted when `execution_date` is passed. -/
def executionDateWarning : String :=
  "Parameter execution_date is deprecated. Use logical_date instead."

/-- The `if states: [DagRunState(s) for s in states] else [default]` block
of `__init__` (lines 150-157): a falsy argument (`None` or the empty list)
yields the one-element default, anything else is parsed elementwise. -/
def statesArgOrDefault (arg : Option (List (String ⊕ DagRunState)))
    (dflt : DagRunState) : Except InitError (List DagRunState) :=
  match arg with
  | some (i :: rest) => parseStates (i :: rest)
  | _ => .ok [dflt]

/-- Line 167 of `__init__`: a non-`None` `execution_date` silently replaces
`logical_date`. -/
def effectiveLogicalDate (a : InitArgs) : Option LDateArg :=
  match a.execution_date with
  | some v => some v
  | none => a.logical_date

/-- Lines 161-166: the deprecation warning, emitted exactly when
`execution_date` is not `None`. -/
def initWarnings (a : InitArgs) : List String :=
  match a.execution_date with
  | some _ => [executionDateWarning]
  | none => []

/-- Lines 158-175 of `__init__`, once the two state lists are settled:
apply the `execution_date` override, type-check the resulting
`logical_date` (lines 169-173), and assemble the operator. -/
def initFinish (a : InitArgs) (allowed failed : List DagRunState) :
    Except InitError InitResult :=
  match effectiveLogicalDate a with
  | some (.other typeName) =>
    .error (.typeError
      ("Expected str or datetime.datetime type for parameter logical_date. Got "
        ++ typeName))
  | ld =>
    .ok
      { op :=
          { trigger_dag_id := a.trigger_dag_id
            trigger_run_id := a.trigger_run_id
            conf := a.conf
            reset_dag_run := a.reset_dag_run
            wait_for_completion := a.wait_for_completion
            poke_interval := a.poke_interval
            allowed_states := allowed
            failed_states := failed
            skip_when_already_exists := a.skip_when_already_exists
            deferrable := a.deferrable
            logical_date := ld }
        warnings := initWarnings a }

/-- `TriggerDagRunOperator.__init__` (lines 126-175): store the plain
attributes; default a falsy (`None` or empty) `allowed_states` to
`[SUCCESS]` and a falsy `failed_states` to `[FAILED]`, otherwise parse
every element via `DagRunState(s)` (lines 150-157); then apply the
`execution_date` override and the `logical_date` type check
(`initFinish`). -/
def init (a : InitArgs) : Except InitError InitResult :=
  match statesArgOrDefault a.allowed_states DagRunState.success with
  | .error e => .error e
  | .ok allowed =>
    match statesArgOrDefault a.failed_states DagRunState.failed with
    | .error e => .error e
    | .ok failed => initFinish a allowed failed

/-- Lines 178-183: resolve `parsed_logical_date` from `self.logical_date`
(a datetime is used as is, a string goes through `timezone.parse`, anything
else falls back to `timezone.utcnow()`). -/
def parsedLogicalDate (op : Op) (w : World) : Nat :=
  match op.logical_date with
  | some (.dt t) => t
  | some (.str s) => w.parse s
  | _ => w.utcnow

/-- Lines 190-193: the run id — the truthy (non-empty) caller-supplied
`trigger_run_id`, else a generated manual run id. -/
def computedRunId (op : Op) (ts : Nat) : String :=
  match op.trigger_run_id with
  | some s => if s = "" then generate_run_id ts else s
  | none => generate_run_id ts

/-- One decision of the blocking poll loop body (lines 256-260), after the
state refresh: raise on a failed state, finish on an allowed state,
otherwise keep polling. Failed states are checked first. -/
inductive PollDecision where
  | raiseFailed (state : DagRunState)
  | finish
  | keepPolling
deriving DecidableEq, Repr

/-- The classification chain of the blocking loop body (lines 256-260). -/
def pollStep (failed_states allowed_states : List DagRunState)
    (state : DagRunState) : PollDecision :=
  if state ∈ failed_states then .raiseFailed state
  else if state ∈ allowed_states then .finish
  else .keepPolling

/-- The classification chain of `execute_complete` (lines 279-288): same
two membership tests in the same order, but a state in neither set raises
instead of continuing. -/
inductive ResumeDecision where
  | raiseFailed (state : DagRunState)
  | finish
  | raiseUnexpected (state : DagRunState)
deriving DecidableEq, Repr

/-- The classification chain of `execute_complete` (lines 279-288). -/
def resumeStep (failed_states allowed_states : List DagRunState)
    (state : DagRunState) : ResumeDecision :=
  if state ∈ failed_states then .raiseFailed state
  else if state ∈ allowed_states then .finish
  else .raiseUnexpected state

/-- Render a list of states the way the error message at lines 285-288
interpolates a Python list. -/
def statesText : List DagRunState → String
  | [] => ""
  | [s] => s.value
  | s :: rest => s.value ++ ", " ++ statesText rest

/-- The `while True` poll loop (lines 245-260) over the finite list of
states the world will report: each iteration sleeps `poke_interval`,
refreshes the state, and classifies it with `pollStep`. -/
def waitLoop (op : Op) : List DagRunState → ExecResult × List Event
  | [] => (.stillPolling, [])
  | state :: rest =>
    match pollStep op.failed_states op.allowed_states state with
    | .raiseFailed st =>
      (.failure (.airflowException
          (op.trigger_dag_id ++ " failed with failed states " ++ st.value)),
        [Event.sleep op.poke_interval])
    | .finish => (.done, [Event.sleep op.poke_interval])
    | .keepPolling =>
      let r := waitLoop op rest
      (r.1, Event.sleep op.poke_interval :: r.2)

/-- Lines 223-260, after `dag_run` is known: push the two xcom entries,
then return at once, suspend on a `DagStateTrigger` watch, or run the
blocking poll loop, per `wait_for_completion` and `self._defer`. -/
def afterTrigger (op : Op) (w : World) (dag_run : DagRunInfo) :
    ExecResult × List Event :=
  let x1 := Event.xcomPush XCOM_LOGICAL_DATE_ISO (isoformat dag_run.logical_date)
  let x2 := Event.xcomPush XCOM_RUN_ID dag_run.run_id
  if op.wait_for_completion then
    if op.deferrable then
      (.deferred op.trigger_dag_id (op.allowed_states ++ op.failed_states)
          [dag_run.logical_date] op.poke_interval,
        [x1, x2])
    else
      let r := waitLoop op w.pollStates
      (r.1, x1 :: x2 :: r.2)
  else (.done, [x1, x2])

/-- `TriggerDagRunOperator.execute` (lines 177-260): resolve the logical
date; check `conf` is JSON-serializable before anything else; resolve the
run id; call `trigger_dag`; on `DagRunAlreadyExists` resolve the conflict
(reset path, skip, or re-raise); then publish the identity and wait as
configured. -/
def execute (op : Op) (w : World) : ExecResult × List Event :=
  let ts := parsedLogicalDate op w
  if confSerializable op.conf then
    let run_id := computedRunId op ts
    let tc := Event.triggerCall op.trigger_dag_id run_id op.conf ts
    match w.triggerDag op.trigger_dag_id run_id op.conf ts with
    | .created run =>
      let r := afterTrigger op w run
      (r.1, tc :: r.2)
    | .alreadyExists existing =>
      if op.reset_dag_run then
        match w.getCurrent op.trigger_dag_id with
        | none =>
          (.failure (.dagNotFound
              ("Dag id " ++ op.trigger_dag_id ++ " not found in DagModel")),
            [tc, Event.getCurrentCall op.trigger_dag_id])
        | some _fileloc =>
          let r := afterTrigger op w existing
          (r.1,
            tc :: Event.getCurrentCall op.trigger_dag_id
              :: Event.clearCall existing.logical_date existing.logical_date
              :: r.2)
      else
        if op.skip_when_already_exists then
          (.skipped
              "Skipping due to skip_when_already_exists is set to True and DagRunAlreadyExists",
            [tc])
        else (.failure (.dagRunAlreadyExists existing), [tc])
  else
    (.failure (.airflowException "conf parameter should be JSON Serializable"), [])

/-- The payload of the resume event delivered by `DagStateTrigger`:
`event[1]["execution_dates"]`. -/
structure ResumeEvent where
  execution_dates : List Nat

/-- Text of `self.logical_date` as interpolated into the no-run message. -/
def ldText : Option LDateArg → String
  | none => "None"
  | some (.str s) => s
  | some (.dt t) => isoformat t
  | some (.other typeName) => typeName

/-- `TriggerDagRunOperator.execute_complete` (lines 262-288): take the
logical date from the delivered event, re-fetch the run by dag id and that
date through the session (the `lookup` collaborator), raise if no row is
found, and classify the freshly read state with `resumeStep`. An empty
date list would be a Python `IndexError`; the model reports it as
`stillPolling`-free failure via a dedicated message. -/
def execute_complete (op : Op) (lookup : String → Nat → Option DagRunInfo)
    (event : ResumeEvent) : ExecResult :=
  match event.execution_dates with
  | [] => .failure (.airflowException "IndexError: list index out of range")
  | provided_logical_date :: _ =>
    match lookup op.trigger_dag_id provided_logical_date with
    | none =>
      .failure (.airflowException
        ("No DAG run found for DAG " ++ op.trigger_dag_id
          ++ " and logical date " ++ ldText op.logical_date))
    | some dag_run =>
      match resumeStep op.failed_states op.allowed_states dag_run.state with
      | .raiseFailed st =>
        .failure (.airflowException
          (op.trigger_dag_id ++ " failed with failed state " ++ st.value))
      | .finish => .done
      | .raiseUnexpected st =>
        .failure (.airflowException
          (op.trigger_dag_id ++ " return " ++ st.value ++ " which is not in ["
            ++ statesText op.failed_states ++ "] or ["
            ++ statesText op.allowed_states ++ "]"))

/-- Is the event an `xcom_push`? -/
def isXcomPush : Event → Bool
  | .xcomPush _ _ => true
  | _ => false

/-- Is the event a `time.sleep`? -/
def isSleep : Event → Bool
  | .sleep _ => true
  | _ => false

/-! ### Example fixtures used by witnesses and counterexamples -/

/-- A baseline operator configuration. -/
def exOp : Op :=
  { trigger_dag_id := "T1"
    trigger_run_id := some "R1"
    conf := none
    reset_dag_run := false
    wait_for_completion := false
    poke_interval := 60
    allowed_states := [.success]
    failed_states := [.failed]
    skip_when_already_exists := false
    deferrable := false
    logical_date := some (.dt 5) }

/-- The operator of the C4 witness: its `conf` holds a value the JSON
serializer rejects (a Python `set`, say). -/
def c4op : Op := { exOp with conf := some (.object "set") }

/-- The operator of the C6 witness: `reset_dag_run` is set. -/
def c6op : Op := { exOp with reset_dag_run := true }

/-- The existing/created run used by the fixtures. -/
def exRun : DagRunInfo :=
  { run_id := "R1", logical_date := 5, conf := none, state := .success }

/-- A world where `trigger_dag` creates the run. -/
def exWorldCreated : World :=
  { triggerDag := fun _ _ _ _ => .created exRun
    getCurrent := fun _ => some "dags/t1.py"
    parse := fun _ => 0
    utcnow := 7
    pollStates := [] }

/-- A world where `trigger_dag` raises `DagRunAlreadyExists`. -/
def exWorldExists : World :=
  { exWorldCreated with triggerDag := fun _ _ _ _ => .alreadyExists exRun }

/-- A world where, additionally, `DagModel.get_current` finds nothing. -/
def exWorldExistsNoDag : World :=
  { exWorldExists with getCurrent := fun _ => none }

/-- The arguments of the C9/C10 witnesses: all optional fields defaulted. -/
def c9args : InitArgs := { trigger_dag_id := "T1" }

/-- The constructed operator `init c9args` produces. -/
def c9res : InitResult :=
  { op :=
      { trigger_dag_id := "T1"
        trigger_run_id := none
        conf := none
        reset_dag_run := false
        wait_for_completion := false
        poke_interval := 60
        allowed_states := [.success]
        failed_states := [.failed]
        skip_when_already_exists := false
        deferrable := false
        logical_date := none }
    warnings := [] }

/-- Arguments with an unrecognized state value, for the C9 witness. -/
def c9badargs : InitArgs :=
  { trigger_dag_id := "T1", allowed_states := some [.inl "bogus"] }

/-- Arguments passing both `logical_date` and a datetime `execution_date`,
for the C10 witness. -/
def c10args : InitArgs :=
  { trigger_dag_id := "T1"
    logical_date := some (.str "2024-01-01")
    execution_date := some (.dt 9) }

/-- Arguments whose `execution_date` has an unsupported type, for the C10
witness. -/
def c10badargs : InitArgs :=
  { c10args with execution_date := some (.other "int") }

/-! ### Helper lemmas about the wait loop and the post-trigger phase -/

/-- A sleep event is not an xcom push. -/
theorem sleep_not_xcom (e : Event) (h : isSleep e = true) : isXcomPush e = false := by
  cases e <;> simp [isSleep, isXcomPush] at *

theorem waitLoop_events_sleep (op : Op) (l : List DagRunState) :
    ∀ e ∈ (waitLoop op l).2, isSleep e = true := by
  induction l with
  | nil => simp [waitLoop]
  | cons s rest ih =>
    intro e he
    rw [waitLoop] at he
    rcases h : pollStep op.failed_states op.allowed_states s with st | _ | _ <;>
      rw [h] at he <;> simp at he
    · simp [he, isSleep]
    · simp [he, isSleep]
    · rcases he with he | he
      · simp [he, isSleep]
      · exact ih e he

theorem waitLoop_result (op : Op) (l : List DagRunState) :
    (waitLoop op l).1 = .stillPolling ∨ (waitLoop op l).1 = .done ∨
      ∃ m, (waitLoop op l).1 = .failure (.airflowException m) := by
  induction l with
  | nil => simp [waitLoop]
  | cons s rest ih =>
    rw [waitLoop]
    rcases h : pollStep op.failed_states op.allowed_states s with st | _ | _ <;> simp
    exact ih

theorem afterTrigger_result (op : Op) (w : World) (run : DagRunInfo) :
    (afterTrigger op w run).1 = .done
    ∨ (afterTrigger op w run).1 =
        .deferred op.trigger_dag_id (op.allowed_states ++ op.failed_states)
          [run.logical_date] op.poke_interval
    ∨ (afterTrigger op w run).1 = (waitLoop op w.pollStates).1 := by
  rw [afterTrigger]
  by_cases hw : op.wait_for_completion = true <;> by_cases hd : op.deferrable = true <;>
    simp [hw, hd]

theorem afterTrigger_events (op : Op) (w : World) (run : DagRunInfo) :
    ∃ tail,
      (afterTrigger op w run).2 =
        Event.xcomPush XCOM_LOGICAL_DATE_ISO (isoformat run.logical_date)
          :: Event.xcomPush XCOM_RUN_ID run.run_id :: tail
      ∧ ∀ e ∈ tail, isSleep e = true := by
  by_cases hw : op.wait_for_completion = true
  · by_cases hd : op.deferrable = true
    · exact ⟨[], by simp [afterTrigger, hw, hd], by simp⟩
    · exact ⟨(waitLoop op w.pollStates).2, by simp [afterTrigger, hw, hd],
        waitLoop_events_sleep op w.pollStates⟩
  · exact ⟨[], by simp [afterTrigger, hw], by simp⟩

/-! ### Helper lemmas about construction -/

theorem parseStates_ok_ne_nil (i : String ⊕ DagRunState)
    (rest : List (String ⊕ DagRunState)) (sts : List DagRunState)
    (h : parseStates (i :: rest) = .ok sts) : sts ≠ [] := by
  rw [parseStates] at h
  rcases hi : parseStateInput i with _ | st <;> rw [hi] at h
  · simp at h
  · rcases hr : parseStates rest with e | l <;> rw [hr] at h
    · simp at h
    · injection h with h2
      rw [← h2]
      simp

theorem parseStates_error_of_bad (l : List (String ⊕ DagRunState))
    (i : String ⊕ DagRunState) (hi : i ∈ l) (hb : parseStateInput i = none) :
    ∃ e, parseStates l = .error e := by
  induction l with
  | nil => simp at hi
  | cons j rest ih =>
    rw [parseStates]
    rcases hj : parseStateInput j with _ | st
    · exact ⟨.valueError (stateInputText j), rfl⟩
    · have hir : i ∈ rest := by
        rcases List.mem_cons.mp hi with h | h
        · subst h
          rw [hj] at hb
          simp at hb
        · exact h
      obtain ⟨e, he⟩ := ih hir
      rw [he]
      exact ⟨e, rfl⟩

theorem statesArgOrDefault_ok (arg : Option (List (String ⊕ DagRunState)))
    (dflt : DagRunState) (l : List DagRunState)
    (h : statesArgOrDefault arg dflt = .ok l) :
    l ≠ []
    ∧ ((arg = none ∨ arg = some []) → l = [dflt])
    ∧ (∀ i rest, arg = some (i :: rest) → parseStates (i :: rest) = .ok l) := by
  rcases arg with _ | ls
  · simp [statesArgOrDefault] at h
    rw [← h]
    exact ⟨by simp, fun _ => rfl, by simp⟩
  · rcases ls with _ | ⟨i, rest⟩
    · simp [statesArgOrDefault] at h
      rw [← h]
      exact ⟨by simp, fun _ => rfl, by simp⟩
    · simp only [statesArgOrDefault] at h
      refine ⟨parseStates_ok_ne_nil i rest l h, by simp, ?_⟩
      intro i2 rest2 hc
      rw [Option.some.injEq] at hc
      rw [← hc]
      exact h

theorem statesArgOrDefault_error_of_bad (arg : Option (List (String ⊕ DagRunState)))
    (dflt : DagRunState) (l : List (String ⊕ DagRunState)) (i : String ⊕ DagRunState)
    (hl : arg = some l) (hi : i ∈ l) (hb : parseStateInput i = none) :
    ∃ e, statesArgOrDefault arg dflt = .error e := by
  subst hl
  rcases l with _ | ⟨j, rest⟩
  · simp at hi
  · obtain ⟨e, he⟩ := parseStates_error_of_bad (j :: rest) i hi hb
    exact ⟨e, by simp only [statesArgOrDefault]; exact he⟩

theorem init_ok_parts (a : InitArgs) (r : InitResult) (h : init a = .ok r) :
    ∃ allowed failed,
      statesArgOrDefault a.allowed_states DagRunState.success = .ok allowed
      ∧ statesArgOrDefault a.failed_states DagRunState.failed = .ok failed
      ∧ initFinish a allowed failed = .ok r := by
  unfold init at h
  split at h
  · simp at h
  · split at h
    · simp at h
    · exact ⟨_, _, by assumption, by assumption, h⟩

theorem init_error_of_allowed (a : InitArgs) (e : InitError)
    (h : statesArgOrDefault a.allowed_states DagRunState.success = .error e) :
    init a = .error e := by
  unfold init
  rw [h]

theorem init_error_of_failed (a : InitArgs) (e : InitError)
    (h : statesArgOrDefault a.failed_states DagRunState.failed = .error e) :
    ∃ e2, init a = .error e2 := by
  unfold init
  rcases hA : statesArgOrDefault a.allowed_states DagRunState.success with eA | allowed
  · exact ⟨eA, rfl⟩
  · rw [h]
    exact ⟨e, rfl⟩

theorem initFinish_ok_shape (a : InitArgs) (allowed failed : List DagRunState)
    (h : ∀ tn, effectiveLogicalDate a ≠ some (.other tn)) :
    ∃ r, initFinish a allowed failed = .ok r
      ∧ r.op.logical_date = effectiveLogicalDate a
      ∧ r.warnings = initWarnings a
      ∧ r.op.allowed_states = allowed
      ∧ r.op.failed_states = failed := by
  unfold initFinish
  rcases hl : effectiveLogicalDate a with _ | v
  · exact ⟨_, rfl, rfl, rfl, rfl, rfl⟩
  · rcases v with s | t | tn
    · exact ⟨_, rfl, rfl, rfl, rfl, rfl⟩
    · exact ⟨_, rfl, rfl, rfl, rfl, rfl⟩
    · exact absurd hl (h tn)

theorem initFinish_fields (a : InitArgs) (allowed failed : List DagRunState)
    (r : InitResult) (h : initFinish a allowed failed = .ok r) :
    r.op.allowed_states = allowed ∧ r.op.failed_states = failed
    ∧ r.op.logical_date = effectiveLogicalDate a ∧ r.warnings = initWarnings a := by
  unfold initFinish at h
  rcases hl : effectiveLogicalDate a with _ | v <;> rw [hl] at h
  · injection h with h2
    rw [← h2]
    exact ⟨rfl, rfl, rfl, rfl⟩
  · rcases v with s | t | tn
    · injection h with h2
      rw [← h2]
      exact ⟨rfl, rfl, rfl, rfl⟩
    · injection h with h2
      rw [← h2]
      exact ⟨rfl, rfl, rfl, rfl⟩
    · simp at h

/-! ### Claim theorems -/

/-- C1: for every run state observed while waiting, in either mode, the
outcome is Failure when the state is in `failed_states` (this test comes
before the allowed test, so an overlap yields Failure), Success when it is
in `allowed_states` and not in `failed_states`, and in blocking mode any
other state makes the poll loop continue with the remaining observations. -/
theorem c1_state_classification (op : Op) (s : DagRunState) (rest : List DagRunState) :
    (s ∈ op.failed_states →
      (waitLoop op (s :: rest)).1 =
        .failure (.airflowException
          (op.trigger_dag_id ++ " failed with failed states " ++ s.value)) ∧
      resumeStep op.failed_states op.allowed_states s = .raiseFailed s)
    ∧ (s ∉ op.failed_states → s ∈ op.allowed_states →
      (waitLoop op (s :: rest)).1 = .done ∧
      resumeStep op.failed_states op.allowed_states s = .finish)
    ∧ (s ∉ op.failed_states → s ∉ op.allowed_states →
      waitLoop op (s :: rest) =
        ((waitLoop op rest).1, Event.sleep op.poke_interval :: (waitLoop op rest).2)) := by
  refine ⟨fun hf => ?_, fun hf ha => ?_, fun hf ha => ?_⟩ <;>
    simp [waitLoop, pollStep, resumeStep, hf, *]

/-- Witness for C1 at concrete inputs, one per branch. -/
theorem c1_state_classification_witness :
    ((waitLoop exOp [DagRunState.failed]).1 =
      .failure (.airflowException
        (exOp.trigger_dag_id ++ " failed with failed states " ++ DagRunState.value .failed)))
    ∧ ((waitLoop exOp [DagRunState.success]).1 = .done)
    ∧ (waitLoop exOp [DagRunState.running, DagRunState.success] =
        ((waitLoop exOp [DagRunState.success]).1,
          Event.sleep exOp.poke_interval :: (waitLoop exOp [DagRunState.success]).2)) :=
  ⟨((c1_state_classification exOp .failed []).1 (by decide)).1,
   ((c1_state_classification exOp .success []).2.1 (by decide) (by decide)).1,
   (c1_state_classification exOp .running [DagRunState.success]).2.2 (by decide) (by decide)⟩

/-- C2: for any state in `allowed_states` or `failed_states`, the blocking
poll loop of `execute` and the deferred-resume handler `execute_complete`
reach the same success/failure decision when that state is the one observed. -/
theorem c2_mode_equivalence (op : Op) (s : DagRunState) (rest : List DagRunState)
    (lookup : String → Nat → Option DagRunInfo) (d : Nat) (ds : List Nat)
    (run : DagRunInfo)
    (hs : s ∈ op.allowed_states ∨ s ∈ op.failed_states)
    (hl : lookup op.trigger_dag_id d = some run) (hst : run.state = s) :
    ((waitLoop op (s :: rest)).1 = .done ↔
      execute_complete op lookup ⟨d :: ds⟩ = .done)
    ∧ ((∃ m, (waitLoop op (s :: rest)).1 = .failure (.airflowException m)) ↔
      (∃ m, execute_complete op lookup ⟨d :: ds⟩ = .failure (.airflowException m))) := by
  by_cases hf : s ∈ op.failed_states
  · simp [waitLoop, pollStep, execute_complete, resumeStep, hl, hst, hf]
  · rcases hs with ha | ha
    · simp [waitLoop, pollStep, execute_complete, resumeStep, hl, hst, hf, ha]
    · exact absurd ha hf

/-- Witness for C2: a concrete allowed state classified by both modes. -/
theorem c2_mode_equivalence_witness :
    ((waitLoop exOp [DagRunState.success]).1 = .done ↔
      execute_complete exOp (fun _ _ => some exRun) ⟨[5]⟩ = .done)
    ∧ ((∃ m, (waitLoop exOp [DagRunState.success]).1 = .failure (.airflowException m)) ↔
      (∃ m, execute_complete exOp (fun _ _ => some exRun) ⟨[5]⟩ =
        .failure (.airflowException m))) :=
  c2_mode_equivalence exOp .success [] (fun _ _ => some exRun) 5 [] exRun
    (Or.inl (by decide)) rfl rfl

/-- C4: when the `conf` payload is not JSON-serializable, `execute` raises
the serializability `AirflowException` immediately: the trace is empty, so
in particular `trigger_dag` is never called and no run is created. -/
theorem c4_invalid_conf (op : Op) (w : World)
    (h : confSerializable op.conf = false) :
    execute op w =
      (.failure (.airflowException "conf parameter should be JSON Serializable"), [])
    ∧ ∀ d r c t, Event.triggerCall d r c t ∉ (execute op w).2 := by
  constructor
  · simp [execute, h]
  · intro d r c t
    simp [execute, h]

/-- Witness for C4: a `conf` holding a non-serializable object. -/
theorem c4_invalid_conf_witness :
    execute c4op exWorldCreated =
      (.failure (.airflowException "conf parameter should be JSON Serializable"), [])
    ∧ ∀ d r c t, Event.triggerCall d r c t ∉ (execute c4op exWorldCreated).2 :=
  c4_invalid_conf c4op exWorldCreated (by decide)

/-- C7: on deferred-mode resume the handler looks the run up afresh by the
target dag id and the logical date taken from the delivered event, and then
fails with the no-run `AirflowException` when nothing is found, fails when
the fresh state is in `failed_states`, succeeds when it is in
`allowed_states`, and otherwise fails with the message naming both
configured state sets. -/
theorem c7_resume_classification (op : Op)
    (lookup : String → Nat → Option DagRunInfo) (d : Nat) (ds : List Nat) :
    (lookup op.trigger_dag_id d = none →
      execute_complete op lookup ⟨d :: ds⟩ =
        .failure (.airflowException
          ("No DAG run found for DAG " ++ op.trigger_dag_id
            ++ " and logical date " ++ ldText op.logical_date)))
    ∧ ∀ run, lookup op.trigger_dag_id d = some run →
        (run.state ∈ op.failed_states →
          execute_complete op lookup ⟨d :: ds⟩ =
            .failure (.airflowException
              (op.trigger_dag_id ++ " failed with failed state " ++ run.state.value)))
        ∧ (run.state ∉ op.failed_states → run.state ∈ op.allowed_states →
          execute_complete op lookup ⟨d :: ds⟩ = .done)
        ∧ (run.state ∉ op.failed_states → run.state ∉ op.allowed_states →
          execute_complete op lookup ⟨d :: ds⟩ =
            .failure (.airflowException
              (op.trigger_dag_id ++ " return " ++ run.state.value
                ++ " which is not in [" ++ statesText op.failed_states
                ++ "] or [" ++ statesText op.allowed_states ++ "]"))) := by
  refine ⟨fun hn => ?_, fun run hr => ⟨fun hf => ?_, fun hf ha => ?_, fun hf ha => ?_⟩⟩ <;>
    simp [execute_complete, resumeStep, *]

/-- Witness for C7: the not-found case and the allowed case, concretely. -/
theorem c7_resume_classification_witness :
    (execute_complete exOp (fun _ _ => none) ⟨[5]⟩ =
      .failure (.airflowException
        ("No DAG run found for DAG " ++ exOp.trigger_dag_id
          ++ " and logical date " ++ ldText exOp.logical_date)))
    ∧ execute_complete exOp (fun _ _ => some exRun) ⟨[5]⟩ = .done :=
  ⟨(c7_resume_classification exOp (fun _ _ => none) 5 []).1 rfl,
   ((c7_resume_classification exOp (fun _ _ => some exRun) 5 []).2 exRun rfl).2.1
     (by decide) (by decide)⟩

/-- C8: an existing-run conflict with `reset_dag_run = false` and
`skip_when_already_exists = true` ends in the Skip outcome — a result
distinct by construction from Success and Failure — and the trace holds
only the attempted `trigger_dag` call: no clear, no xcom publication, no
sleep. -/
theorem c8_skip_outcome (op : Op) (w : World) (existing : DagRunInfo)
    (hconf : confSerializable op.conf = true)
    (htrig : w.triggerDag op.trigger_dag_id
        (computedRunId op (parsedLogicalDate op w)) op.conf
        (parsedLogicalDate op w) = .alreadyExists existing)
    (hreset : op.reset_dag_run = false)
    (hskip : op.skip_when_already_exists = true) :
    execute op w =
      (.skipped
          "Skipping due to skip_when_already_exists is set to True and DagRunAlreadyExists",
        [Event.triggerCall op.trigger_dag_id
          (computedRunId op (parsedLogicalDate op w)) op.conf
          (parsedLogicalDate op w)])
    ∧ (∀ m, ExecResult.skipped m ≠ .done)
    ∧ (∀ m e, ExecResult.skipped m ≠ .failure e) := by
  refine ⟨?_, by simp, by simp⟩
  simp [execute, hconf, htrig, hreset, hskip]

/-- Witness for C8 at a concrete conflicted trigger. -/
theorem c8_skip_outcome_witness :
    execute { exOp with skip_when_already_exists := true } exWorldExists =
      (.skipped
          "Skipping due to skip_when_already_exists is set to True and DagRunAlreadyExists",
        [Event.triggerCall "T1" "R1" none 5])
    ∧ (∀ m, ExecResult.skipped m ≠ .done)
    ∧ (∀ m e, ExecResult.skipped m ≠ .failure e) :=
  c8_skip_outcome { exOp with skip_when_already_exists := true } exWorldExists exRun
    rfl rfl rfl rfl

/-- C3: on an existing-run conflict, exactly one of the three behaviors
occurs, determined solely by the two flags with reset taking precedence:
the reset path (marked by the `DagModel.get_current` call) is taken iff
`reset_dag_run`; the Skip outcome occurs iff `reset_dag_run` is off and
`skip_when_already_exists` is on; the `DagRunAlreadyExists` error — always
carrying the existing run — propagates iff both flags are off. -/
theorem c3_conflict_exclusivity (op : Op) (w : World) (existing : DagRunInfo)
    (hconf : confSerializable op.conf = true)
    (htrig : w.triggerDag op.trigger_dag_id
        (computedRunId op (parsedLogicalDate op w)) op.conf
        (parsedLogicalDate op w) = .alreadyExists existing) :
    ((Event.getCurrentCall op.trigger_dag_id ∈ (execute op w).2) ↔
        op.reset_dag_run = true)
    ∧ ((∃ m, (execute op w).1 = .skipped m) ↔
        (op.reset_dag_run = false ∧ op.skip_when_already_exists = true))
    ∧ ((∃ ex, (execute op w).1 = .failure (.dagRunAlreadyExists ex)) ↔
        (op.reset_dag_run = false ∧ op.skip_when_already_exists = false))
    ∧ (∀ ex, (execute op w).1 = .failure (.dagRunAlreadyExists ex) → ex = existing) := by
  by_cases hr : op.reset_dag_run = true
  · rcases hg : w.getCurrent op.trigger_dag_id with _ | loc
    · simp [execute, hconf, htrig, hr, hg]
    · have hns : ∀ m, (afterTrigger op w existing).1 ≠ .skipped m := by
        intro m
        rcases afterTrigger_result op w existing with h | h | h <;> rw [h] <;> try simp
        rcases waitLoop_result op w.pollStates with h2 | h2 | ⟨m2, h2⟩ <;> rw [h2] <;> simp
      have hna : ∀ ex, (afterTrigger op w existing).1 ≠ .failure (.dagRunAlreadyExists ex) := by
        intro ex
        rcases afterTrigger_result op w existing with h | h | h <;> rw [h] <;> try simp
        rcases waitLoop_result op w.pollStates with h2 | h2 | ⟨m2, h2⟩ <;> rw [h2] <;> simp
      simp [execute, hconf, htrig, hr, hg, hns, hna]
  · by_cases hs : op.skip_when_already_exists = true <;>
      simp [execute, hconf, htrig, hr, hs]

/-- Witness for C3 at a concrete conflict (`reset` off, `skip` off). -/
theorem c3_conflict_exclusivity_witness :
    ((Event.getCurrentCall exOp.trigger_dag_id ∈ (execute exOp exWorldExists).2) ↔
        exOp.reset_dag_run = true)
    ∧ ((∃ m, (execute exOp exWorldExists).1 = .skipped m) ↔
        (exOp.reset_dag_run = false ∧ exOp.skip_when_already_exists = true))
    ∧ ((∃ ex, (execute exOp exWorldExists).1 = .failure (.dagRunAlreadyExists ex)) ↔
        (exOp.reset_dag_run = false ∧ exOp.skip_when_already_exists = false))
    ∧ (∀ ex, (execute exOp exWorldExists).1 = .failure (.dagRunAlreadyExists ex) →
        ex = exRun) :=
  c3_conflict_exclusivity exOp exWorldExists exRun rfl rfl

/-- C5 counterexample: a successful trigger on a concrete input publishes
its two side-channel entries under the keys `trigger_logical_date_iso` and
`trigger_run_id`; no entry is published under the keys the claim names
(`triggered_logical_date_iso`, `triggered_run_id`). -/
theorem c5_counterexample :
    (execute exOp exWorldCreated).1 = ExecResult.done
    ∧ (execute exOp exWorldCreated).2.countP (fun e => isXcomPush e) = 2
    ∧ (execute exOp exWorldCreated).2.all
        (fun e =>
          match e with
          | .xcomPush k _ =>
            (k != "triggered_logical_date_iso") && (k != "triggered_run_id")
          | _ => true) = true :=
  ⟨rfl, rfl, rfl⟩

/-- C5 as amended: after every successful or conflict-resolved trigger the
trace publishes exactly two side-channel entries, under the actual keys
`trigger_logical_date_iso` (the ISO text of the child run logical date) and
`trigger_run_id` (the run id), and both precede any waiting. -/
theorem c5_amended_two_pushes (op : Op) (w : World) (run : DagRunInfo)
    (hconf : confSerializable op.conf = true)
    (h : w.triggerDag op.trigger_dag_id
          (computedRunId op (parsedLogicalDate op w)) op.conf
          (parsedLogicalDate op w) = .created run
      ∨ (w.triggerDag op.trigger_dag_id
            (computedRunId op (parsedLogicalDate op w)) op.conf
            (parsedLogicalDate op w) = .alreadyExists run
          ∧ op.reset_dag_run = true
          ∧ ∃ loc, w.getCurrent op.trigger_dag_id = some loc)) :
    ∃ pre tail,
      (execute op w).2 =
        pre ++ Event.xcomPush XCOM_LOGICAL_DATE_ISO (isoformat run.logical_date)
          :: Event.xcomPush XCOM_RUN_ID run.run_id :: tail
      ∧ (∀ e ∈ pre, isXcomPush e = false ∧ isSleep e = false)
      ∧ (∀ e ∈ tail, isXcomPush e = false) := by
  rcases h with h | ⟨h, hr, loc, hg⟩
  · obtain ⟨tail, ht, hs⟩ := afterTrigger_events op w run
    refine ⟨[Event.triggerCall op.trigger_dag_id
        (computedRunId op (parsedLogicalDate op w)) op.conf
        (parsedLogicalDate op w)], tail, ?_, ?_, ?_⟩
    · simp [execute, hconf, h, ht]
    · simp [isXcomPush, isSleep]
    · exact fun e he => sleep_not_xcom e (hs e he)
  · obtain ⟨tail, ht, hs⟩ := afterTrigger_events op w run
    refine ⟨[Event.triggerCall op.trigger_dag_id
          (computedRunId op (parsedLogicalDate op w)) op.conf
          (parsedLogicalDate op w),
        Event.getCurrentCall op.trigger_dag_id,
        Event.clearCall run.logical_date run.logical_date], tail, ?_, ?_, ?_⟩
    · simp [execute, hconf, h, hr, hg, ht]
    · simp [isXcomPush, isSleep]
    · exact fun e he => sleep_not_xcom e (hs e he)

/-- Witness for the amended C5 at a concrete created run. -/
theorem c5_amended_two_pushes_witness :
    ∃ pre tail,
      (execute exOp exWorldCreated).2 =
        pre ++ Event.xcomPush XCOM_LOGICAL_DATE_ISO (isoformat exRun.logical_date)
          :: Event.xcomPush XCOM_RUN_ID exRun.run_id :: tail
      ∧ (∀ e ∈ pre, isXcomPush e = false ∧ isSleep e = false)
      ∧ (∀ e ∈ tail, isXcomPush e = false) :=
  c5_amended_two_pushes exOp exWorldCreated exRun rfl (Or.inl rfl)

/-- C6: on the reset path, a missing workflow definition raises the fatal
`DagNotFound` error (with no clear performed); otherwise the existing run
history is cleared exactly once, for exactly the window start = end = that
run's logical date, the existing run record — payload included — is the
one the rest of `execute` continues with (its identity is what the xcom
entries publish), and no further store mutation appears in the trace. -/
theorem c6_reset_path (op : Op) (w : World) (existing : DagRunInfo)
    (hconf : confSerializable op.conf = true)
    (htrig : w.triggerDag op.trigger_dag_id
        (computedRunId op (parsedLogicalDate op w)) op.conf
        (parsedLogicalDate op w) = .alreadyExists existing)
    (hreset : op.reset_dag_run = true) :
    (w.getCurrent op.trigger_dag_id = none →
      execute op w =
        (.failure (.dagNotFound
            ("Dag id " ++ op.trigger_dag_id ++ " not found in DagModel")),
          [Event.triggerCall op.trigger_dag_id
              (computedRunId op (parsedLogicalDate op w)) op.conf
              (parsedLogicalDate op w),
            Event.getCurrentCall op.trigger_dag_id]))
    ∧ (∀ loc, w.getCurrent op.trigger_dag_id = some loc →
        ∃ tail,
          (execute op w).2 =
            Event.triggerCall op.trigger_dag_id
                (computedRunId op (parsedLogicalDate op w)) op.conf
                (parsedLogicalDate op w)
              :: Event.getCurrentCall op.trigger_dag_id
              :: Event.clearCall existing.logical_date existing.logical_date
              :: Event.xcomPush XCOM_LOGICAL_DATE_ISO (isoformat existing.logical_date)
              :: Event.xcomPush XCOM_RUN_ID existing.run_id :: tail
          ∧ (∀ e ∈ tail, isSleep e = true)
          ∧ (execute op w).1 = (afterTrigger op w existing).1) := by
  constructor
  · intro hg
    simp [execute, hconf, htrig, hreset, hg]
  · intro loc hg
    obtain ⟨tail, ht, hs⟩ := afterTrigger_events op w existing
    exact ⟨tail, by simp [execute, hconf, htrig, hreset, hg, ht], hs,
      by simp [execute, hconf, htrig, hreset, hg]⟩

/-- Witness for C6: the definition-missing case and the successful reset,
each at a concrete conflicted trigger. -/
theorem c6_reset_path_witness :
    (execute c6op exWorldExistsNoDag =
      (.failure (.dagNotFound
          ("Dag id " ++ c6op.trigger_dag_id ++ " not found in DagModel")),
        [Event.triggerCall c6op.trigger_dag_id
            (computedRunId c6op (parsedLogicalDate c6op exWorldExistsNoDag)) c6op.conf
            (parsedLogicalDate c6op exWorldExistsNoDag),
          Event.getCurrentCall c6op.trigger_dag_id]))
    ∧ ∃ tail,
        (execute c6op exWorldExists).2 =
          Event.triggerCall c6op.trigger_dag_id
              (computedRunId c6op (parsedLogicalDate c6op exWorldExists)) c6op.conf
              (parsedLogicalDate c6op exWorldExists)
            :: Event.getCurrentCall c6op.trigger_dag_id
            :: Event.clearCall exRun.logical_date exRun.logical_date
            :: Event.xcomPush XCOM_LOGICAL_DATE_ISO (isoformat exRun.logical_date)
            :: Event.xcomPush XCOM_RUN_ID exRun.run_id :: tail
        ∧ (∀ e ∈ tail, isSleep e = true)
        ∧ (execute c6op exWorldExists).1 = (afterTrigger c6op exWorldExists exRun).1 :=
  ⟨(c6_reset_path c6op exWorldExistsNoDag exRun rfl rfl rfl).1 rfl,
   (c6_reset_path c6op exWorldExists exRun rfl rfl rfl).2 "dags/t1.py" rfl⟩

/-- C9: whenever construction succeeds, `allowed_states` and
`failed_states` are non-empty lists of `DagRunState` values: a missing or
empty argument silently becomes `[SUCCESS]` (resp. `[FAILED]`), a supplied
non-empty argument is parsed elementwise by `DagRunState(s)`, and an
unrecognized value makes construction raise instead. The operator record
is immutable in this embedding, so the invariant is preserved by every
subsequent operation. -/
theorem c9_states_invariant (a : InitArgs) :
    (∀ r, init a = .ok r →
      r.op.allowed_states ≠ [] ∧ r.op.failed_states ≠ []
      ∧ ((a.allowed_states = none ∨ a.allowed_states = some []) →
          r.op.allowed_states = [DagRunState.success])
      ∧ ((a.failed_states = none ∨ a.failed_states = some []) →
          r.op.failed_states = [DagRunState.failed])
      ∧ (∀ i rest, a.allowed_states = some (i :: rest) →
          parseStates (i :: rest) = .ok r.op.allowed_states)
      ∧ (∀ i rest, a.failed_states = some (i :: rest) →
          parseStates (i :: rest) = .ok r.op.failed_states))
    ∧ (∀ l i, a.allowed_states = some l → i ∈ l → parseStateInput i = none →
        ∃ e, init a = .error e)
    ∧ (∀ l i, a.failed_states = some l → i ∈ l → parseStateInput i = none →
        ∃ e, init a = .error e) := by
  refine ⟨fun r h => ?_, fun l i hl hi hb => ?_, fun l i hl hi hb => ?_⟩
  · obtain ⟨allowed, failed, hA, hF, hfin⟩ := init_ok_parts a r h
    obtain ⟨ha1, ha2, ha3⟩ := statesArgOrDefault_ok _ _ _ hA
    obtain ⟨hf1, hf2, hf3⟩ := statesArgOrDefault_ok _ _ _ hF
    obtain ⟨hra, hrf, _, _⟩ := initFinish_fields a allowed failed r hfin
    rw [hra, hrf]
    exact ⟨ha1, hf1, ha2, hf2, ha3, hf3⟩
  · obtain ⟨e, he⟩ :=
      statesArgOrDefault_error_of_bad a.allowed_states DagRunState.success l i hl hi hb
    exact ⟨e, init_error_of_allowed a e he⟩
  · obtain ⟨e, he⟩ :=
      statesArgOrDefault_error_of_bad a.failed_states DagRunState.failed l i hl hi hb
    exact init_error_of_failed a e he

/-- Witness for C9: defaulted arguments construct `[SUCCESS]`/`[FAILED]`,
and an unrecognized state value makes construction fail. -/
theorem c9_states_invariant_witness :
    (c9res.op.allowed_states ≠ [] ∧ c9res.op.failed_states ≠ []
      ∧ ((c9args.allowed_states = none ∨ c9args.allowed_states = some []) →
          c9res.op.allowed_states = [DagRunState.success])
      ∧ ((c9args.failed_states = none ∨ c9args.failed_states = some []) →
          c9res.op.failed_states = [DagRunState.failed])
      ∧ (∀ i rest, c9args.allowed_states = some (i :: rest) →
          parseStates (i :: rest) = .ok c9res.op.allowed_states)
      ∧ (∀ i rest, c9args.failed_states = some (i :: rest) →
          parseStates (i :: rest) = .ok c9res.op.failed_states))
    ∧ (∃ e, init c9badargs = .error e) :=
  ⟨(c9_states_invariant c9args).1 c9res (by rfl),
   (c9_states_invariant c9badargs).2.1 [.inl "bogus"] (.inl "bogus") rfl
     (by simp) (by rfl)⟩

/-- C10: when a non-`None` `execution_date` is supplied alongside any
`logical_date`, the `execution_date` value silently overrides it — the
construction succeeds with that value as `logical_date` and only the
deprecation warning emitted — and the overriding value undergoes the same
type check: a value that is neither `str` nor `datetime.datetime` raises
the construction-time `TypeError`. -/
theorem c10_execution_date_override (a : InitArgs) (v : LDateArg)
    (allowed failed : List DagRunState)
    (hed : a.execution_date = some v)
    (hA : statesArgOrDefault a.allowed_states DagRunState.success = .ok allowed)
    (hF : statesArgOrDefault a.failed_states DagRunState.failed = .ok failed) :
    (∀ s, v = .str s →
      ∃ r, init a = .ok r ∧ r.op.logical_date = some v
        ∧ r.warnings = [executionDateWarning])
    ∧ (∀ t, v = .dt t →
      ∃ r, init a = .ok r ∧ r.op.logical_date = some v
        ∧ r.warnings = [executionDateWarning])
    ∧ (∀ tn, v = .other tn →
      init a = .error (.typeError
        ("Expected str or datetime.datetime type for parameter logical_date. Got "
          ++ tn))) := by
  have hinit : init a = initFinish a allowed failed := by
    unfold init
    rw [hA, hF]
  have held : effectiveLogicalDate a = some v := by
    unfold effectiveLogicalDate
    rw [hed]
  have hwarn : initWarnings a = [executionDateWarning] := by
    unfold initWarnings
    rw [hed]
  refine ⟨fun s hs => ?_, fun t ht => ?_, fun tn htn => ?_⟩
  · obtain ⟨r, hr, hld, hw, _, _⟩ :=
      initFinish_ok_shape a allowed failed (by intro tn2; rw [held, hs]; simp)
    exact ⟨r, hinit ▸ hr, by rw [hld, held], by rw [hw, hwarn]⟩
  · obtain ⟨r, hr, hld, hw, _, _⟩ :=
      initFinish_ok_shape a allowed failed (by intro tn2; rw [held, ht]; simp)
    exact ⟨r, hinit ▸ hr, by rw [hld, held], by rw [hw, hwarn]⟩
  · rw [hinit]
    unfold initFinish
    rw [held, htn]

/-- Witness for C10: a datetime `execution_date` overrides a supplied
string `logical_date`, and an unsupported type raises. -/
theorem c10_execution_date_override_witness :
    (∃ r, init c10args = .ok r ∧ r.op.logical_date = some (.dt 9)
      ∧ r.warnings = [executionDateWarning])
    ∧ init c10badargs = .error (.typeError
        ("Expected str or datetime.datetime type for parameter logical_date. Got "
          ++ "int")) :=
  ⟨(c10_execution_date_override c10args (.dt 9) [.success] [.failed]
      rfl rfl rfl).2.1 9 rfl,
   (c10_execution_date_override c10badargs (.other "int") [.success] [.failed]
      rfl rfl rfl).2.2 "int" rfl⟩

end TriggerDagRun
